import Mathlib

/-
Verification of the collaboration server's RPC layer
(src/crates/collab/src/rpc.rs) against its specification.

The handlers in rpc.rs are shallowly embedded: each handler becomes a pure
Lean function from its inputs (the payload fields it reads, the results of
the Store and Db calls it performs) to the ordered list of observable
effects it produces (peer sends, responses, error responses, Db writes)
plus its `Result` value.  Effects are recorded in program order, so
ordering claims become statements about positions in the produced list.

The `Store` itself lives in store.rs, which is not among the sources; the
few Store operations whose internal behaviour decides a claim are modelled
from the specification and are marked as such in their doc comments.  All
other Store and Db calls are passed to the embedded handlers as explicit
arguments (their result values), exactly where the Rust code awaits them.
-/

namespace SigDeploy

/-- A followed view, as relayed in a `FollowResponse` (rpc.rs `follow`,
lines 1422-1451): only its `leader_id` field is inspected by the server. -/
structure View where
  viewId : Nat
  leader_id : Option Nat
deriving DecidableEq, Repr

/-- Server-to-client message payloads, reduced to the fields the rpc.rs
handlers actually read or construct.  Opaque payload contents (worktree
entries, diagnostic summaries, forwarded payloads) are represented by
natural numbers. -/
inductive Msg where
  | hello (peerId : Nat)
  | showContacts
  | incomingCall (roomId : Nat)
  | initialContactsUpdate
  | updateInviteInfo (count : Nat)
  | updateContacts (outgoingRequests : List Nat) (incomingRequests : List Nat)
  | unshareProject (projectId : Nat)
  | removeProjectCollaborator (projectId : Nat) (peerId : Nat)
  | callCanceled
  | roomUpdated (roomId : Nat)
  | addProjectCollaborator (projectId : Nat) (peerId : Nat)
  | joinProjectResponse (replicaId : Nat) (worktreeIds : List Nat)
      (languageServerIds : List Nat)
  | updateWorktree (projectId : Nat) (worktreeId : Nat) (entries : List Nat)
      (scanId : Nat) (isLastUpdate : Bool)
  | updateDiagnosticSummary (projectId : Nat) (worktreeId : Nat) (summary : Nat)
  | updateLanguageServer (projectId : Nat) (languageServerId : Nat)
  | channelMessageSent (channelId : Nat) (messageId : Nat) (body : List Char)
      (timestamp : Nat) (nonce : Nat) (senderUserId : Nat)
  | sendChannelMessageResponse (messageId : Nat) (timestamp : Nat)
  | ack
  | followResponse (views : List View)
  | payload (value : Nat)
deriving DecidableEq, Repr

/-- Observable effects of a handler, in program order.  `send` is
`Peer::send`, `requestMsg` is `Peer::request`, `respond` is
`Response::send` (rpc.rs lines 85-91), `respondWithError` is
`Peer::respond_with_error`, and the `db…` constructors are the Db writes
the handlers perform. -/
inductive Event where
  | send (conn : Nat) (msg : Msg)
  | requestMsg (conn : Nat) (msg : Msg)
  | respond (conn : Nat) (msg : Msg)
  | respondWithError (conn : Nat) (message : String)
  | forwardRequest (origin : Nat) (target : Nat)
  | disconnect (conn : Nat)
  | releaseStoreLock
  | roomLeft
  | registerProjectActivity (projectId : Nat) (conn : Nat)
  | updateUserContacts (userId : Nat)
  | dbUnregisterProject (projectId : Nat)
  | dbCreateChannelMessage (channelId : Nat) (userId : Nat) (body : List Char)
      (timestamp : Nat) (nonce : Nat)
  | dbSendContactRequest (requesterId : Nat) (responderId : Nat)
  | dbSetUserConnectedOnce (userId : Nat)
deriving DecidableEq, Repr

/-- Result of running a request handler's body: the effects it performed
(in order) and the `Result` it returned.  A call to `Response::send`
appears as a `.respond` event addressed to the requester; the wrapper's
`responded` flag (rpc.rs line 82, set at line 87) is recovered from the
events. -/
structure HandlerRun where
  events : List Event
  result : Except String Unit
deriving Repr

/-- Whether an event is a `Response::send` to the given requester. -/
def Event.isRespondTo (requester : Nat) : Event → Bool
  | .respond conn _ => conn = requester
  | _ => false

/-- The `responded` atomic flag observed by `add_request_handler` after the
handler future completes: true exactly when `Response::send` ran. -/
def respondedFlag (requester : Nat) (run : HandlerRun) : Bool :=
  run.events.any (Event.isRespondTo requester)

/-- Translation of the request-dispatch wrapper: `add_request_handler`
(rpc.rs lines 254-291) composed with the `add_message_handler` wrapper
(lines 216-250), which only logs the error the inner future returns.
On `Ok` with the response sent the overall result is `Ok`; on `Ok`
without a response the wrapper yields the protocol error
"handler did not send a response" (which the outer wrapper logs); on
`Err` it sends one error reply carrying the error's message and yields
the error.  The first component is the complete event list that reached
the peer. -/
def dispatchRequest (requester : Nat) (run : HandlerRun) :
    List Event × Except String Unit :=
  match run.result with
  | .ok () =>
      if respondedFlag requester run then (run.events, .ok ())
      else (run.events, .error "handler did not send a response")
  | .error e => (run.events ++ [.respondWithError requester e], .error e)

/-- Whether the requester received a terminal reply (a `Response::send`
payload or an error reply) somewhere in the event list. -/
def requestHasTerminalReply (requester : Nat) (events : List Event) : Bool :=
  events.any fun e =>
    match e with
    | .respond conn _ => conn = requester
    | .respondWithError conn _ => conn = requester
    | _ => false

/-- Translation of the free function `broadcast` (rpc.rs lines 1973-1985):
apply `f` to every receiver other than the sender, in order (send failures
are only traced). -/
def broadcast (senderId : Nat) (receiverIds : List Nat) (f : Nat → Event) :
    List Event :=
  (receiverIds.filter fun r => r ≠ senderId).map f

/-- One hosted project as returned inside `RemovedConnection`
(store.rs, described in spec section 4.2): its id and its guests'
connection ids (`project.guests.keys()` in rpc.rs line 490). -/
structure HostedProject where
  id : Nat
  guests : List Nat
deriving DecidableEq, Repr

/-- One guest project as returned inside `RemovedConnection`: its id and
the connection ids of the remaining project members (rpc.rs line 501). -/
structure GuestProject where
  id : Nat
  connection_ids : List Nat
deriving DecidableEq, Repr

/-- The room snapshot carried by `RemovedConnection`: the peer ids of the
remaining participants, to which `room_updated` sends `RoomUpdated`
(rpc.rs lines 883-894). -/
structure RoomSnapshot where
  id : Nat
  participants : List Nat
deriving DecidableEq, Repr

/-- The value `Store::remove_connection` returns, as consumed by
`sign_out` (rpc.rs lines 488-523) and described in spec section 4.2. -/
structure RemovedConnection where
  hosted_projects : List HostedProject
  guest_projects : List GuestProject
  room : Option RoomSnapshot
  canceled_call_connection_ids : List Nat
  user_id : Nat
deriving DecidableEq, Repr

/-- The set `contacts_to_update` accumulated by `sign_out` (rpc.rs lines
478, 517, 522): the removed connection's user plus the users of the
connections whose pending calls were canceled (looked up in the
post-removal store, modelled by `userOf`). -/
def contactsToUpdate (userOf : Nat → Option Nat) (rc : RemovedConnection) :
    List Nat :=
  (rc.user_id :: rc.canceled_call_connection_ids.filterMap userOf).dedup

/-- The events `sign_out` produces while having the Store lock (the block
at rpc.rs lines 480-524), preceded by the `Peer::disconnect` of line 475:
broadcast `UnshareProject` to each hosted project's guests,
`RemoveProjectCollaborator` to each guest project's members, `RoomUpdated`
to the room's remaining participants, and `CallCanceled` to each canceled
callee. -/
def signOutLockedEvents (connectionId : Nat) (rc : RemovedConnection) :
    List Event :=
  [Event.disconnect connectionId]
    ++ (rc.hosted_projects.flatMap fun p =>
          broadcast connectionId p.guests fun c =>
            Event.send c (Msg.unshareProject p.id))
    ++ (rc.guest_projects.flatMap fun p =>
          broadcast connectionId p.connection_ids fun c =>
            Event.send c (Msg.removeProjectCollaborator p.id connectionId))
    ++ (match rc.room with
        | some room => room.participants.map fun peer =>
            Event.send peer (Msg.roomUpdated room.id)
        | none => [])
    ++ rc.canceled_call_connection_ids.map fun c => Event.send c Msg.callCanceled

/-- The events `sign_out` produces after releasing the Store lock (rpc.rs
lines 526-540): await `room_left` if a room was involved, refresh the
contacts of every affected user, and call `Db::unregister_project` for
every project the signed-out connection hosted. -/
def signOutAfterLockEvents (userOf : Nat → Option Nat)
    (rc : RemovedConnection) : List Event :=
  (match rc.room with
      | some _ => [Event.roomLeft]
      | none => [])
    ++ (contactsToUpdate userOf rc).map Event.updateUserContacts
    ++ rc.hosted_projects.map fun p => Event.dbUnregisterProject p.id

/-- Translation of `Server::sign_out` (rpc.rs lines 473-543) applied to an
already-obtained `RemovedConnection`: the in-lock events, then the release
of the Store lock (end of the block at line 524), then the after-lock
events. -/
def signOutEvents (connectionId : Nat) (userOf : Nat → Option Nat)
    (rc : RemovedConnection) : List Event :=
  signOutLockedEvents connectionId rc
    ++ Event.releaseStoreLock :: signOutAfterLockEvents userOf rc

/-- The slice of Store state that `sign_out` touches: which connection ids
are registered, what removing each of them would return, and the
user-for-connection lookup used for canceled callees. -/
structure Store where
  connections : List Nat
  removalData : Nat → RemovedConnection
  userOf : Nat → Option Nat

/-- Modelled from the spec: `Store::remove_connection` lives in store.rs,
which is not among the sources.  Spec section 4.2 gives its signature
`remove_connection(conn) -> RemovedConnection { … }` with "all return
error on invariant violation", and section 7 names the error kind
`UnknownConnection — Store lookup by a connection id that no longer
exists`.  Removing a registered connection succeeds and unregisters it;
removing an unknown one fails and leaves the store untouched. -/
def Store.remove_connection (s : Store) (c : Nat) :
    Except String (RemovedConnection × Store) :=
  if c ∈ s.connections then
    .ok (s.removalData c, { s with connections := s.connections.erase c })
  else
    .error "unknown connection"

/-- Translation of the whole of `Server::sign_out` (rpc.rs lines 473-543)
including the `Store::remove_connection` call: returns the events that
occurred, the handler's result, and the store afterwards.  When
`remove_connection` fails, only the `Peer::disconnect` (line 475) has
happened and the error propagates (`?` at line 486; in test builds the
code instead unwraps and panics, line 484). -/
def signOutRun (s : Store) (connectionId : Nat) :
    List Event × Except String Unit × Store :=
  match s.remove_connection connectionId with
  | .ok (rc, s1) => (signOutEvents connectionId s1.userOf rc, .ok (), s1)
  | .error e => ([Event.disconnect connectionId], .error e, s)

/-- A worktree as read by `join_project` (rpc.rs lines 1066-1098): entry
values and diagnostic summaries are opaque. -/
structure WorktreeEmb where
  id : Nat
  root_name : String
  entries : List Nat
  diagnostic_summaries : List Nat
  scan_id : Nat
  is_complete : Bool
deriving DecidableEq, Repr

/-- A language server attached to a project (rpc.rs lines 1100-1113). -/
structure LanguageServerEmb where
  id : Nat
deriving DecidableEq, Repr

/-- A guest collaborator of a project, keyed by connection id. -/
structure GuestEmb where
  connId : Nat
  replica_id : Nat
  user_id : Nat
deriving DecidableEq, Repr

/-- The slice of a Store project that `join_project` reads. -/
structure ProjectEmb where
  host_connection_id : Nat
  host_user_id : Nat
  guests : List GuestEmb
  worktrees : List WorktreeEmb
  language_servers : List LanguageServerEmb
deriving DecidableEq, Repr

/-- Modelled from the spec: `Project::connection_ids` lives in store.rs,
which is not among the sources; per spec I3 a project's connections are
its host connection plus exactly its guests' connections. -/
def ProjectEmb.connectionIds (p : ProjectEmb) : List Nat :=
  p.host_connection_id :: p.guests.map (·.connId)

/-- Modelled from the spec: `proto::split_worktree_update` lives in the
rpc crate, which is not among the sources.  Per spec section 4.6 it chunks
the update's entries at ≤ max_chunk_size entries per chunk, and per P5
reassembling the chunks yields the original entry list and
`is_last_update` appears on exactly the final chunk (carrying the
original update's flag, i.e. the worktree's is-complete bit). -/
def splitWorktreeUpdateAux (projectId : Nat) (worktreeId : Nat)
    (scanId : Nat) (isLastUpdate : Bool) (k : Nat) (xs : List Nat) :
    List Msg :=
  if _h : xs.length ≤ k ∨ k = 0 then
    [Msg.updateWorktree projectId worktreeId xs scanId isLastUpdate]
  else
    Msg.updateWorktree projectId worktreeId (xs.take k) scanId false
      :: splitWorktreeUpdateAux projectId worktreeId scanId isLastUpdate k
          (xs.drop k)
termination_by xs.length
decreasing_by
  push_neg at _h
  simp only [List.length_drop]
  omega

/-- The chunked `UpdateWorktree` stream for one worktree, as built by
`join_project` (rpc.rs lines 1072-1085): the unsplit message carries the
worktree's full entry list, scan id and is-complete flag, and is split at
MAX_CHUNK_SIZE. -/
def splitWorktreeUpdate (projectId : Nat) (w : WorktreeEmb) (k : Nat) :
    List Msg :=
  splitWorktreeUpdateAux projectId w.id w.scan_id w.is_complete k w.entries

/-- The entry list carried by an `UpdateWorktree` message. -/
def updateWorktreeEntries : Msg → List Nat
  | .updateWorktree _ _ es _ _ => es
  | _ => []

/-- MAX_CHUNK_SIZE in test builds (rpc.rs lines 1067-1068). -/
def MAX_CHUNK_SIZE_TEST : Nat := 2

/-- MAX_CHUNK_SIZE in production builds (rpc.rs lines 1069-1070). -/
def MAX_CHUNK_SIZE_PROD : Nat := 256

/-- Translation of the effect sequence of `Server::join_project` (rpc.rs
lines 991-1116) after the Store has admitted the joiner with the given
replica id: `AddProjectCollaborator` to every other project connection;
the `JoinProjectResponse` reply; then, worktree by worktree, the chunked
`UpdateWorktree` stream followed by that worktree's
`UpdateDiagnosticSummary` messages; finally one `UpdateLanguageServer`
per language server. -/
def joinProjectEvents (projectId : Nat) (senderConn : Nat)
    (replicaId : Nat) (p : ProjectEmb) (k : Nat) : List Event :=
  ((p.connectionIds.filter fun c => c ≠ senderConn).map fun c =>
      Event.send c (Msg.addProjectCollaborator projectId senderConn))
    ++ [Event.respond senderConn
          (Msg.joinProjectResponse replicaId (p.worktrees.map (·.id))
            (p.language_servers.map (·.id)))]
    ++ (p.worktrees.flatMap fun w =>
          (splitWorktreeUpdate projectId w k).map
              (fun m => Event.send senderConn m)
            ++ w.diagnostic_summaries.map fun s =>
                Event.send senderConn
                  (Msg.updateDiagnosticSummary projectId w.id s))
    ++ p.language_servers.map fun ls =>
        Event.send senderConn (Msg.updateLanguageServer projectId ls.id)

/-- The message payloads delivered to one connection, in order: both plain
sends and the `Response::send` reply arrive on the same socket in send
order (spec section 4.1, ordering guarantee). -/
def msgsToConn (conn : Nat) (events : List Event) : List Msg :=
  events.filterMap fun e =>
    match e with
    | .send c m => if c = conn then some m else none
    | .respond c m => if c = conn then some m else none
    | _ => none

/-- The phase a message belongs to in the streaming order that claim C4
asserts: reply, then all worktree chunks, then all diagnostics, then
language servers. -/
def joinStreamPhase : Msg → Nat
  | .joinProjectResponse _ _ _ => 0
  | .updateWorktree _ _ _ _ _ => 1
  | .updateDiagnosticSummary _ _ _ => 2
  | .updateLanguageServer _ _ => 3
  | _ => 4

/-- Whether a list of naturals is non-decreasing. -/
def isSortedLe : List Nat → Bool
  | [] => true
  | [_] => true
  | a :: b :: rest => decide (a ≤ b) && isSortedLe (b :: rest)

/-- The streaming order claim C4 makes, as a predicate on a join: the
messages the joiner receives pass through the four phases monotonically
(reply, all chunks, all diagnostics, all language servers). -/
def joinProjectClaimedPhaseOrder (projectId : Nat) (senderConn : Nat)
    (replicaId : Nat) (p : ProjectEmb) (k : Nat) : Bool :=
  isSortedLe
    ((msgsToConn senderConn
        (joinProjectEvents projectId senderConn replicaId p k)).map
      joinStreamPhase)

/-- A concrete project with two worktrees: worktree 21 has no entries but
one diagnostic summary, worktree 22 has three entries and no summaries. -/
def projC4 : ProjectEmb where
  host_connection_id := 1
  host_user_id := 10
  guests := []
  worktrees :=
    [{ id := 21, root_name := "a", entries := [], diagnostic_summaries := [5],
       scan_id := 4, is_complete := true },
     { id := 22, root_name := "b", entries := [9, 8, 7],
       diagnostic_summaries := [], scan_id := 4, is_complete := true }]
  language_servers := [{ id := 30 }]

/-- A concrete store holding the single connection 7, whose removal yields
no hosted or guest projects, no room and no pending calls. -/
def storeC3 : Store where
  connections := [7]
  removalData := fun _ =>
    { hosted_projects := [], guest_projects := [], room := none,
      canceled_call_connection_ids := [], user_id := 3 }
  userOf := fun _ => none

/-- A concrete removed-connection value: one hosted project with id 11
whose only guest is connection 5. -/
def removedConnW : RemovedConnection where
  hosted_projects := [⟨11, [5]⟩]
  guest_projects := []
  room := none
  canceled_call_connection_ids := []
  user_id := 3

/-- Translation of `Server::call` (rpc.rs lines 755-818).  The Store and
Db calls are passed in as arguments over an abstract store state `σ`:
`userIdForConnection` is `Store::user_id_for_connection`, `hasContact` is
`Db::has_contact`, `storeCall` performs `Store::call` (returning the
updated store, the room participants `room_updated` notifies, and the
recipient's connection ids that get the `IncomingCall` request),
`callFailed` performs `Store::call_failed`, and `anyRecipientAccepted`
tells whether some `IncomingCall` request resolved with `Ok`.  Returns
the store afterwards, the events, and the handler's result. -/
def callHandler {σ : Type}
    (userIdForConnection : σ → Nat → Except String Nat)
    (hasContact : Nat → Nat → Bool)
    (storeCall : σ → Nat → Nat → Option Nat → Nat →
      Except String (σ × List Nat × List Nat))
    (callFailed : σ → Nat → Nat → Except String (σ × List Nat))
    (anyRecipientAccepted : Bool)
    (s : σ) (senderConn roomId recipientUserId : Nat)
    (initialProjectId : Option Nat) :
    σ × List Event × Except String Unit :=
  match userIdForConnection s senderConn with
  | .error e => (s, [], .error e)
  | .ok callerUserId =>
    if !hasContact callerUserId recipientUserId then
      (s, [], .error "cannot call a user who isn't a contact")
    else
      match storeCall s roomId recipientUserId initialProjectId senderConn with
      | .error e => (s, [], .error e)
      | .ok (s1, participants, recipientConns) =>
        let ringEvents :=
          participants.map (fun c => Event.send c (Msg.roomUpdated roomId))
            ++ recipientConns.map (fun c =>
                Event.requestMsg c (Msg.incomingCall roomId))
            ++ [Event.updateUserContacts recipientUserId]
        if anyRecipientAccepted then
          (s1, ringEvents ++ [Event.respond senderConn Msg.ack], .ok ())
        else
          match callFailed s1 roomId recipientUserId with
          | .error e => (s1, ringEvents, .error e)
          | .ok (s2, participants2) =>
              (s2, ringEvents
                  ++ participants2.map (fun c =>
                      Event.send c (Msg.roomUpdated roomId))
                  ++ [Event.updateUserContacts recipientUserId],
                .error "failed to ring call recipient")

/-- MAX_MESSAGE_LEN (rpc.rs line 111). -/
def MAX_MESSAGE_LEN : Nat := 1024

/-- Rust's `str::trim` on a message body represented as its character
list: strip leading and trailing whitespace (the whitespace class is
abstracted by `Char.isWhitespace`). -/
def trimBody (body : List Char) : List Char :=
  ((body.dropWhile Char.isWhitespace).reverse.dropWhile
      Char.isWhitespace).reverse

/-- Rust's `String::len` (UTF-8 byte length) of a character list. -/
def bodyByteLen (body : List Char) : Nat :=
  (body.map Char.utf8Size).sum

/-- Translation of `Server::send_channel_message` (rpc.rs lines
1781-1836): read the sender's user id and the channel's connection ids
from the Store; trim the body and validate its byte length (too long
before blank), then require a nonce; only then persist through
`Db::create_channel_message` (whose assigned id is `createChannelMessage
…`), fan `ChannelMessageSent` out to every channel connection except the
sender, and reply with the assigned id and timestamp. -/
def sendChannelMessage
    (userIdForConnection : Nat → Except String Nat)
    (channelConnectionIds : Nat → Except String (List Nat))
    (createChannelMessage : Nat → Nat → List Char → Nat → Nat → Nat)
    (senderConn channelId : Nat) (body : List Char) (nonce : Option Nat)
    (timestamp : Nat) : List Event × Except String Unit :=
  match userIdForConnection senderConn with
  | .error e => ([], .error e)
  | .ok userId =>
    match channelConnectionIds channelId with
    | .error e => ([], .error e)
    | .ok connectionIds =>
      let b := trimBody body
      if bodyByteLen b > MAX_MESSAGE_LEN then
        ([], .error "message is too long")
      else if b.isEmpty then
        ([], .error "message can't be blank")
      else
        match nonce with
        | none => ([], .error "nonce can't be blank")
        | some n =>
          let messageId := createChannelMessage channelId userId b timestamp n
          ([Event.dbCreateChannelMessage channelId userId b timestamp n]
              ++ broadcast senderConn connectionIds (fun c =>
                  Event.send c (Msg.channelMessageSent channelId messageId b
                    timestamp n userId))
              ++ [Event.respond senderConn
                  (Msg.sendChannelMessageResponse messageId timestamp)],
            .ok ())

/-- Translation of `Server::forward_project_request` (rpc.rs lines
1287-1313): `readBefore` and `readAfter` are the results of the two
`read_project` calls (each yielding the host's connection id, or the
lookup/permission error), and `hostReply` is the outcome of
`forward_request` to the host. -/
def forwardProjectRequest (senderConn : Nat)
    (readBefore : Except String Nat) (hostReply : Except String Nat)
    (readAfter : Except String Nat) : List Event × Except String Unit :=
  match readBefore with
  | .error e => ([], .error e)
  | .ok hostConnectionId =>
    match hostReply with
    | .error e => ([Event.forwardRequest senderConn hostConnectionId], .error e)
    | .ok value =>
      match readAfter with
      | .error e =>
          ([Event.forwardRequest senderConn hostConnectionId], .error e)
      | .ok _ =>
          ([Event.forwardRequest senderConn hostConnectionId,
            Event.respond senderConn (Msg.payload value)], .ok ())

/-- Translation of the setup phase of `Server::handle_connection` (rpc.rs
lines 357-404): right after `Peer::add_connection`, send `Hello` with the
connection's own id; if the user has not connected before, send
`ShowContacts` and persist the flag; then under the Store lock register
the connection and send any pending incoming call, the initial contacts
update, and the invite info if one exists; finally refresh the user's
contacts.  The drive loop (lines 406-461) only runs afterwards. -/
def handleConnectionSetup (connectionId userId : Nat) (connectedOnce : Bool)
    (incomingCall : Option Msg) (inviteCode : Option Nat) : List Event :=
  [Event.send connectionId (Msg.hello connectionId)]
    ++ (if connectedOnce then []
        else [Event.send connectionId Msg.showContacts,
              Event.dbSetUserConnectedOnce userId])
    ++ (match incomingCall with
        | some call => [Event.send connectionId call]
        | none => [])
    ++ [Event.send connectionId Msg.initialContactsUpdate]
    ++ (match inviteCode with
        | some count => [Event.send connectionId (Msg.updateInviteInfo count)]
        | none => [])
    ++ [Event.updateUserContacts userId]

/-- Translation of `Server::request_contact` (rpc.rs lines 1578-1618):
look up the requester, reject a self-request before any Db write, else
persist the contact request and fan `UpdateContacts` out to both users'
connections (outgoing request to the requester's, incoming request to the
responder's), then reply `Ack`. -/
def requestContact
    (userIdForConnection : Nat → Except String Nat)
    (connectionIdsForUser : Nat → List Nat)
    (senderConn responderId : Nat) : List Event × Except String Unit :=
  match userIdForConnection senderConn with
  | .error e => ([], .error e)
  | .ok requesterId =>
    if requesterId = responderId then
      ([], .error "cannot add yourself as a contact")
    else
      ([Event.dbSendContactRequest requesterId responderId]
          ++ (connectionIdsForUser requesterId).map (fun c =>
              Event.send c (Msg.updateContacts [responderId] []))
          ++ (connectionIdsForUser responderId).map (fun c =>
              Event.send c (Msg.updateContacts [] [requesterId]))
          ++ [Event.respond senderConn Msg.ack],
        .ok ())

/-- Translation of `Server::follow` (rpc.rs lines 1422-1451):
`projectConnectionIds` is the result of `project_connection_ids` for the
follower, `leaderReply` the outcome of the Follow request forwarded to
the leader.  The leader must be among the project's connections; on
success the reply's views are filtered to drop every view whose
`leader_id` is the follower's own connection id (`retain` at lines
1446-1448), and the rest are relayed unchanged. -/
def followHandler (projectId followerConn leaderConn : Nat)
    (projectConnectionIds : Except String (List Nat))
    (leaderReply : Except String (List View)) :
    List Event × Except String (List View) :=
  match projectConnectionIds with
  | .error e => ([], .error e)
  | .ok conns =>
    if leaderConn ∈ conns then
      match leaderReply with
      | .error e =>
          ([Event.registerProjectActivity projectId followerConn,
            Event.forwardRequest followerConn leaderConn], .error e)
      | .ok views =>
          let kept := views.filter fun v => v.leader_id ≠ some followerConn
          ([Event.registerProjectActivity projectId followerConn,
            Event.forwardRequest followerConn leaderConn,
            Event.respond followerConn (Msg.followResponse kept)],
            .ok kept)
    else
      ([], .error "no such peer")

/-- A concrete list of views: two led by other peers (5 and 7), one with
no leader. -/
def viewsC10 : List View :=
  [{ viewId := 1, leader_id := some 5 },
   { viewId := 2, leader_id := some 7 },
   { viewId := 3, leader_id := none }]

/-- Helper: messages delivered to `conn` by a block of sends addressed to
`conn` itself, each built from an element by `f`. -/
theorem msgsToConn_map_send (conn : Nat) {β : Type} (f : β → Msg)
    (xs : List β) :
    msgsToConn conn (xs.map fun x => Event.send conn (f x)) = xs.map f := by
  induction xs with
  | nil => rfl
  | cons x xs ih =>
      simp only [List.map_cons, msgsToConn, List.filterMap_cons] at ih ⊢
      simp [ih]

/-- Helper: a block of identical sends, none addressed to `conn`, delivers
nothing to `conn`. -/
theorem msgsToConn_map_send_ne (conn : Nat) (msg : Msg) (l : List Nat)
    (h : ∀ c ∈ l, c ≠ conn) :
    msgsToConn conn (l.map fun c => Event.send c msg) = [] := by
  induction l with
  | nil => rfl
  | cons c l ih =>
      have hc : c ≠ conn := h c (List.mem_cons_self c l)
      simp only [List.map_cons, msgsToConn, List.filterMap_cons] at ih ⊢
      simp only [if_neg hc]
      exact ih fun d hd => h d (List.mem_cons_of_mem c hd)

/-- Helper: sends addressed to `conn` itself, one per message. -/
theorem msgsToConn_map_send_self (conn : Nat) (xs : List Msg) :
    msgsToConn conn (xs.map fun m => Event.send conn m) = xs := by
  have h := msgsToConn_map_send conn (fun m => m) xs
  simpa using h

/-- Helper: `msgsToConn` distributes over list concatenation. -/
theorem msgsToConn_append (conn : Nat) (l₁ l₂ : List Event) :
    msgsToConn conn (l₁ ++ l₂) = msgsToConn conn l₁ ++ msgsToConn conn l₂ :=
  List.filterMap_append l₁ l₂ _

/-- Helper: `msgsToConn` distributes over `flatMap`. -/
theorem msgsToConn_flatMap (conn : Nat) {β : Type} (g : β → List Event)
    (l : List β) :
    msgsToConn conn (l.flatMap g) = l.flatMap fun b => msgsToConn conn (g b) := by
  induction l with
  | nil => rfl
  | cons b l ih => simp [List.flatMap_cons, msgsToConn_append, ih]

/-- Helper: reassembling the chunk stream for any entry list yields the
original entries. -/
theorem splitAux_join (pid wid sid : Nat) (isLast : Bool) (k : Nat)
    (xs : List Nat) :
    ((splitWorktreeUpdateAux pid wid sid isLast k xs).map
        updateWorktreeEntries).flatten = xs := by
  generalize hn : xs.length = n
  induction n using Nat.strong_induction_on generalizing xs with
  | _ n ih =>
    unfold splitWorktreeUpdateAux
    split
    · simp [updateWorktreeEntries]
    · rename_i h
      push_neg at h
      have hlen : (List.drop k xs).length < n := by
        simp only [List.length_drop]
        omega
      rw [List.map_cons, List.flatten_cons, ih _ hlen _ rfl]
      simp [updateWorktreeEntries]

/-- Helper: every chunk in the stream carries at most `k` entries. -/
theorem splitAux_chunk_le (pid wid sid : Nat) (isLast : Bool) (k : Nat)
    (hk : 0 < k) (xs : List Nat) :
    ∀ m ∈ splitWorktreeUpdateAux pid wid sid isLast k xs,
      (updateWorktreeEntries m).length ≤ k := by
  generalize hn : xs.length = n
  induction n using Nat.strong_induction_on generalizing xs with
  | _ n ih =>
    intro m hm
    unfold splitWorktreeUpdateAux at hm
    split at hm
    · rename_i h
      have hmx := List.mem_singleton.mp hm
      subst hmx
      rcases h with h | hzero
      · simpa [updateWorktreeEntries] using h
      · exact absurd (hzero ▸ hk) (lt_irrefl 0)
    · rename_i h
      push_neg at h
      rcases List.mem_cons.mp hm with hmx | hm2
      · subst hmx
        simp only [updateWorktreeEntries, List.length_take]
        omega
      · have hlen : (List.drop k xs).length < n := by
          simp only [List.length_drop]
          omega
        exact ih _ hlen _ rfl m hm2

/-- Claim C1 (counterexample): a request handler that returns `Ok` without
having sent a response via its `Response` token leaves the request with no
terminal reply at all — the dispatcher turns the situation into the
protocol error "handler did not send a response", but that error is only
logged by the message-handler wrapper; no error reply is generated for the
requester, contrary to the claim. -/
theorem dispatch_ok_without_response_no_reply :
    requestHasTerminalReply 0 (dispatchRequest 0 ⟨[], Except.ok ()⟩).1 = false := by
  rfl

/-- Claim C1 (amended): if the handler returns an error, exactly one error
reply carrying the error's message is appended for the requester; if the
handler returns `Ok` without having sent a response, the dispatcher yields
the protocol error "handler did not send a response" which is only logged —
no error reply is sent, so that request gets no terminal reply; if the
handler returned `Ok` after responding, nothing is added. -/
theorem dispatchRequest_reply_policy (requester : Nat) (run : HandlerRun) :
    (∀ e, run.result = Except.error e →
        (dispatchRequest requester run).1
          = run.events ++ [Event.respondWithError requester e])
    ∧ (run.result = Except.ok () → respondedFlag requester run = false →
        (dispatchRequest requester run).1 = run.events
        ∧ (dispatchRequest requester run).2
            = Except.error "handler did not send a response")
    ∧ (run.result = Except.ok () → respondedFlag requester run = true →
        (dispatchRequest requester run).1 = run.events
        ∧ (dispatchRequest requester run).2 = Except.ok ()) := by
  refine ⟨?_, ?_, ?_⟩
  · intro e he
    simp [dispatchRequest, he]
  · intro hok hflag
    simp [dispatchRequest, hok, hflag]
  · intro hok hflag
    simp [dispatchRequest, hok, hflag]

/-- Witness for dispatchRequest_reply_policy: a handler failing with
"boom" causes exactly one error reply carrying "boom". -/
theorem dispatchRequest_reply_policy_witness :
    (dispatchRequest 0 ⟨[], Except.error "boom"⟩).1
      = [Event.respondWithError 0 "boom"] := by
  have h := (dispatchRequest_reply_policy 0 ⟨[], Except.error "boom"⟩).1 "boom" rfl
  simpa using h

/-- Claim C4 (counterexample): the claimed streaming order (reply, then
all `UpdateWorktree` chunks, then all `UpdateDiagnosticSummary`, then the
`UpdateLanguageServer` messages) fails on a project with two worktrees
where the first has a diagnostic summary: join_project interleaves each
worktree's diagnostics between that worktree's chunks and the next
worktree's chunks, so the phase sequence is not monotone. -/
theorem joinProject_claimed_order_false :
    joinProjectClaimedPhaseOrder 99 2 1 projC4 2 = false := by
  have h1 : splitWorktreeUpdate 99
      { id := 21, root_name := "a", entries := [], diagnostic_summaries := [5],
        scan_id := 4, is_complete := true } 2
      = [Msg.updateWorktree 99 21 [] 4 true] := by
    unfold splitWorktreeUpdate
    rw [splitWorktreeUpdateAux.eq_def]
    simp
  have h2 : splitWorktreeUpdate 99
      { id := 22, root_name := "b", entries := [9, 8, 7],
        diagnostic_summaries := [], scan_id := 4, is_complete := true } 2
      = [Msg.updateWorktree 99 22 [9, 8] 4 false,
         Msg.updateWorktree 99 22 [7] 4 true] := by
    unfold splitWorktreeUpdate
    rw [splitWorktreeUpdateAux.eq_def, splitWorktreeUpdateAux.eq_def]
    simp
  simp [joinProjectClaimedPhaseOrder, joinProjectEvents, msgsToConn, projC4,
    ProjectEmb.connectionIds, h1, h2, isSortedLe, joinStreamPhase]

/-- Claim C4 (amended): on a successful JoinProject the joiner receives,
in order: first the `JoinProjectResponse` carrying the worktree metadata,
then — worktree by worktree — that worktree's entries as `UpdateWorktree`
chunks of at most MAX_CHUNK_SIZE entries each (256 in production builds,
2 in test builds) immediately followed by that worktree's
`UpdateDiagnosticSummary` messages, and after all worktrees one
`UpdateLanguageServer` message per language server; the chunks of each
worktree reassemble exactly to its entry list. -/
theorem joinProject_stream (projectId senderConn replicaId : Nat)
    (p : ProjectEmb) (k : Nat) (hk : 0 < k) :
    msgsToConn senderConn (joinProjectEvents projectId senderConn replicaId p k)
        = Msg.joinProjectResponse replicaId (p.worktrees.map (·.id))
              (p.language_servers.map (·.id))
            :: ((p.worktrees.flatMap fun w =>
                  splitWorktreeUpdate projectId w k
                    ++ w.diagnostic_summaries.map fun s =>
                        Msg.updateDiagnosticSummary projectId w.id s)
                ++ p.language_servers.map fun ls =>
                    Msg.updateLanguageServer projectId ls.id)
    ∧ (∀ w ∈ p.worktrees,
        ((splitWorktreeUpdate projectId w k).map updateWorktreeEntries).flatten
          = w.entries)
    ∧ (∀ w ∈ p.worktrees, ∀ m ∈ splitWorktreeUpdate projectId w k,
        (updateWorktreeEntries m).length ≤ k)
    ∧ MAX_CHUNK_SIZE_TEST = 2 ∧ MAX_CHUNK_SIZE_PROD = 256 := by
  refine ⟨?_, ?_, ?_, rfl, rfl⟩
  · have hA : msgsToConn senderConn
        ((p.connectionIds.filter fun c => c ≠ senderConn).map fun c =>
          Event.send c (Msg.addProjectCollaborator projectId senderConn)) = [] :=
      msgsToConn_map_send_ne _ _ _ fun c hc =>
        of_decide_eq_true (List.mem_filter.mp hc).2
    have hW : ∀ w : WorktreeEmb,
        msgsToConn senderConn
          ((splitWorktreeUpdate projectId w k).map
              (fun m => Event.send senderConn m)
            ++ w.diagnostic_summaries.map fun s =>
                Event.send senderConn
                  (Msg.updateDiagnosticSummary projectId w.id s))
          = splitWorktreeUpdate projectId w k
            ++ w.diagnostic_summaries.map fun s =>
                Msg.updateDiagnosticSummary projectId w.id s := by
      intro w
      rw [msgsToConn_append, msgsToConn_map_send_self, msgsToConn_map_send]
    unfold joinProjectEvents
    rw [msgsToConn_append, msgsToConn_append, msgsToConn_append, hA,
      msgsToConn_flatMap, msgsToConn_map_send]
    simp only [hW]
    simp [msgsToConn]
  · intro w _
    exact splitAux_join projectId w.id w.scan_id w.is_complete k w.entries
  · intro w _
    exact splitAux_chunk_le projectId w.id w.scan_id w.is_complete k hk w.entries

/-- Witness for joinProject_stream: chunking worktree 22's three entries
at size 2 and reassembling yields the original entries. -/
theorem joinProject_stream_witness :
    ((splitWorktreeUpdate 99
        { id := 22, root_name := "b", entries := [9, 8, 7],
          diagnostic_summaries := [], scan_id := 4, is_complete := true }
        2).map updateWorktreeEntries).flatten = [9, 8, 7] :=
  (joinProject_stream 99 2 1 projC4 2 (by decide)).2.1 _ (by decide)

/-- Claim C2: when sign_out runs for a disconnecting connection, every
guest connection of every project that connection hosted is sent an
`UnshareProject` message for that project while the Store lock is still
held (hence before any later message of the teardown), and
`Db::unregister_project` is called for each hosted project id strictly
after the Store lock has been released — the trace splits at the lock
release, with no unregistration before it and every hosted project
unregistered after it. -/
theorem signOut_unshare_and_unregister (connectionId : Nat)
    (userOf : Nat → Option Nat) (rc : RemovedConnection) :
    (∀ p ∈ rc.hosted_projects, ∀ g ∈ p.guests, g ≠ connectionId →
        Event.send g (Msg.unshareProject p.id) ∈
          signOutEvents connectionId userOf rc)
    ∧ ∃ locked after,
        signOutEvents connectionId userOf rc
            = locked ++ Event.releaseStoreLock :: after
        ∧ (∀ q, Event.dbUnregisterProject q ∉ locked)
        ∧ (∀ p ∈ rc.hosted_projects, Event.dbUnregisterProject p.id ∈ after) := by
  constructor
  · intro p hp g hg hne
    have hmem : Event.send g (Msg.unshareProject p.id) ∈
        rc.hosted_projects.flatMap fun q =>
          broadcast connectionId q.guests fun c =>
            Event.send c (Msg.unshareProject q.id) := by
      refine List.mem_flatMap.mpr ⟨p, hp, ?_⟩
      refine List.mem_map.mpr ⟨g, ?_, rfl⟩
      exact List.mem_filter.mpr ⟨hg, decide_eq_true hne⟩
    have h1 : Event.send g (Msg.unshareProject p.id) ∈
        signOutLockedEvents connectionId rc := by
      unfold signOutLockedEvents
      refine List.mem_append.mpr (Or.inl ?_)
      refine List.mem_append.mpr (Or.inl ?_)
      refine List.mem_append.mpr (Or.inl ?_)
      exact List.mem_append.mpr (Or.inr hmem)
    unfold signOutEvents
    exact List.mem_append.mpr (Or.inl h1)
  · refine ⟨signOutLockedEvents connectionId rc,
      signOutAfterLockEvents userOf rc, rfl, ?_, ?_⟩
    · intro q hq
      cases hr : rc.room with
      | none =>
          simp [signOutLockedEvents, broadcast, hr] at hq
      | some room =>
          simp [signOutLockedEvents, broadcast, hr] at hq
    · intro p hp
      have hmem : Event.dbUnregisterProject p.id ∈
          rc.hosted_projects.map fun q => Event.dbUnregisterProject q.id :=
        List.mem_map.mpr ⟨p, hp, rfl⟩
      unfold signOutAfterLockEvents
      exact List.mem_append.mpr (Or.inr hmem)

/-- Witness for signOut_unshare_and_unregister: in a concrete sign-out of
connection 7 hosting project 11 with guest 5, the guest receives the
`UnshareProject` message. -/
theorem signOut_unshare_and_unregister_witness :
    Event.send 5 (Msg.unshareProject 11) ∈
      signOutEvents 7 (fun _ => none) removedConnW :=
  (signOut_unshare_and_unregister 7 (fun _ => none) removedConnW).1
    ⟨11, [5]⟩ (by decide) 5 (by decide) (by decide)

/-- Claim C3 (counterexample): running sign_out a second time for
connection 7 after it has already completed does not complete cleanly:
`Store::remove_connection` no longer finds the connection, so sign_out
propagates an error instead of returning `Ok` — contradicting "completes
cleanly, the same as running it once" (in test builds the code unwraps the
lookup and panics instead, rpc.rs line 484). -/
theorem signOut_second_run_not_clean :
    (signOutRun (signOutRun storeC3 7).2.2 7).2.1
      = Except.error "unknown connection" := by
  rfl

/-- Claim C3 (amended): a second sign_out for a connection that has
already been signed out leaves the Store (and hence the Peer-visible
state) unchanged and performs no fan-out and no Db call — the only event
is the `Peer::disconnect` — but it completes with an "unknown connection"
error rather than cleanly (and in test builds it panics). -/
theorem signOut_second_run_noop (s : Store) (c : Nat)
    (hnd : s.connections.Nodup) (hc : c ∈ s.connections) :
    signOutRun (signOutRun s c).2.2 c
      = ([Event.disconnect c], Except.error "unknown connection",
          (signOutRun s c).2.2) := by
  have h1 : (signOutRun s c).2.2 = { s with connections := s.connections.erase c } := by
    simp [signOutRun, Store.remove_connection, hc]
  have h2 : c ∉ s.connections.erase c := by
    intro hmem
    rcases (List.Nodup.mem_erase_iff hnd).mp hmem with ⟨hne, _⟩
    exact hne rfl
  rw [h1]
  simp [signOutRun, Store.remove_connection, h2]

/-- Witness for signOut_second_run_noop at the concrete store storeC3. -/
theorem signOut_second_run_noop_witness :
    signOutRun (signOutRun storeC3 7).2.2 7
      = ([Event.disconnect 7], Except.error "unknown connection",
          (signOutRun storeC3 7).2.2) :=
  signOut_second_run_noop storeC3 7 (by decide) (by decide)

/-- Claim C5: when the caller and the recipient user are not contacts
(`Db::has_contact` returns false), the Call handler fails with the error
"cannot call a user who isn't a contact" before touching `Store::call`:
the store is returned unchanged, no event occurs — in particular no
pending participant is created and no `IncomingCall` request is sent to
any of the recipient's connections.  The dispatcher (claim C1's wrapper)
then turns the error into the error reply. -/
theorem call_non_contact_rejected {σ : Type}
    (userIdForConnection : σ → Nat → Except String Nat)
    (hasContact : Nat → Nat → Bool)
    (storeCall : σ → Nat → Nat → Option Nat → Nat →
      Except String (σ × List Nat × List Nat))
    (callFailed : σ → Nat → Nat → Except String (σ × List Nat))
    (anyRecipientAccepted : Bool)
    (s : σ) (senderConn roomId recipientUserId : Nat)
    (initialProjectId : Option Nat) (callerUserId : Nat)
    (hu : userIdForConnection s senderConn = .ok callerUserId)
    (hc : hasContact callerUserId recipientUserId = false) :
    callHandler userIdForConnection hasContact storeCall callFailed
        anyRecipientAccepted s senderConn roomId recipientUserId
        initialProjectId
      = (s, [], .error "cannot call a user who isn't a contact") := by
  simp [callHandler, hu, hc]

/-- Witness for call_non_contact_rejected at concrete inputs. -/
theorem call_non_contact_rejected_witness :
    callHandler (σ := Unit) (fun _ _ => .ok 4) (fun _ _ => false)
        (fun s _ _ _ _ => .ok (s, [], [])) (fun s _ _ => .ok (s, []))
        false () 2 1 9 none
      = ((), [], .error "cannot call a user who isn't a contact") :=
  call_non_contact_rejected (fun _ _ => .ok 4) (fun _ _ => false)
    (fun s _ _ _ _ => .ok (s, [], [])) (fun s _ _ => .ok (s, []))
    false () 2 1 9 none 4 rfl rfl

/-- Claim C6: SendChannelMessage validates the trimmed body's byte length
(too long checked first, then blank) and the presence of a nonce; on any
validation failure it fails with the corresponding error having produced
no event at all — in particular `Db::create_channel_message` is never
called; when all validations pass it persists the message, fans
`ChannelMessageSent` out to every connection currently in the channel
except the sender, and replies with the Db-assigned message id and the
timestamp. -/
theorem sendChannelMessage_validation
    (userIdForConnection : Nat → Except String Nat)
    (channelConnectionIds : Nat → Except String (List Nat))
    (createChannelMessage : Nat → Nat → List Char → Nat → Nat → Nat)
    (senderConn channelId : Nat) (body : List Char) (nonce : Option Nat)
    (timestamp : Nat) (userId : Nat) (conns : List Nat)
    (hu : userIdForConnection senderConn = .ok userId)
    (hconns : channelConnectionIds channelId = .ok conns) :
    (bodyByteLen (trimBody body) > MAX_MESSAGE_LEN →
        sendChannelMessage userIdForConnection channelConnectionIds
            createChannelMessage senderConn channelId body nonce timestamp
          = ([], .error "message is too long"))
    ∧ (¬ bodyByteLen (trimBody body) > MAX_MESSAGE_LEN →
        (trimBody body).isEmpty = true →
        sendChannelMessage userIdForConnection channelConnectionIds
            createChannelMessage senderConn channelId body nonce timestamp
          = ([], .error "message can't be blank"))
    ∧ (¬ bodyByteLen (trimBody body) > MAX_MESSAGE_LEN →
        (trimBody body).isEmpty = false → nonce = none →
        sendChannelMessage userIdForConnection channelConnectionIds
            createChannelMessage senderConn channelId body nonce timestamp
          = ([], .error "nonce can't be blank"))
    ∧ (∀ n, ¬ bodyByteLen (trimBody body) > MAX_MESSAGE_LEN →
        (trimBody body).isEmpty = false → nonce = some n →
        sendChannelMessage userIdForConnection channelConnectionIds
            createChannelMessage senderConn channelId body nonce timestamp
          = ([Event.dbCreateChannelMessage channelId userId (trimBody body)
                timestamp n]
              ++ broadcast senderConn conns (fun c =>
                  Event.send c (Msg.channelMessageSent channelId
                    (createChannelMessage channelId userId (trimBody body)
                      timestamp n)
                    (trimBody body) timestamp n userId))
              ++ [Event.respond senderConn
                  (Msg.sendChannelMessageResponse
                    (createChannelMessage channelId userId (trimBody body)
                      timestamp n)
                    timestamp)],
            .ok ())) := by
  refine ⟨?_, ?_, ?_, ?_⟩
  · intro h
    simp [sendChannelMessage, hu, hconns, h]
  · intro h1 h2
    simp [sendChannelMessage, hu, hconns, h1, h2]
  · intro h1 h2 h3
    simp [sendChannelMessage, hu, hconns, h1, h2, h3]
  · intro n h1 h2 h3
    simp [sendChannelMessage, hu, hconns, h1, h2, h3]

/-- Witness for sendChannelMessage_validation: a valid two-character
message is persisted, fanned out and acknowledged. -/
theorem sendChannelMessage_validation_witness :
    sendChannelMessage (fun _ => .ok 4) (fun _ => .ok [2, 3])
        (fun _ _ _ _ _ => 42) 2 6 ['h', 'i'] (some 7) 100
      = ([Event.dbCreateChannelMessage 6 4 (trimBody ['h', 'i']) 100 7]
          ++ broadcast 2 [2, 3] (fun c =>
              Event.send c (Msg.channelMessageSent 6 42 (trimBody ['h', 'i'])
                100 7 4))
          ++ [Event.respond 2 (Msg.sendChannelMessageResponse 42 100)],
        .ok ()) :=
  (sendChannelMessage_validation (fun _ => .ok 4) (fun _ => .ok [2, 3])
      (fun _ _ _ _ _ => 42) 2 6 ['h', 'i'] (some 7) 100 4 [2, 3]
      rfl rfl).2.2.2 7 (by decide) (by decide) rfl

/-- Claim C7: forward_project_request forwards the request to the
project's host connection whenever the initial read succeeds, and after
the host replies it re-validates the project through a second
`read_project`; the host's payload is relayed to the requester only when
that re-validation succeeds, and when it fails the handler yields the
re-validation error (the dispatcher turns it into an error reply) without
relaying the payload. -/
theorem forwardProjectRequest_revalidates (senderConn : Nat)
    (readBefore hostReply readAfter : Except String Nat) :
    (∀ host, readBefore = .ok host →
        Event.forwardRequest senderConn host ∈
          (forwardProjectRequest senderConn readBefore hostReply
            readAfter).1)
    ∧ (∀ host value hostAgain, readBefore = .ok host →
        hostReply = .ok value → readAfter = .ok hostAgain →
        forwardProjectRequest senderConn readBefore hostReply readAfter
          = ([Event.forwardRequest senderConn host,
              Event.respond senderConn (Msg.payload value)], .ok ()))
    ∧ (∀ host value e, readBefore = .ok host → hostReply = .ok value →
        readAfter = .error e →
        forwardProjectRequest senderConn readBefore hostReply readAfter
          = ([Event.forwardRequest senderConn host], .error e)) := by
  refine ⟨?_, ?_, ?_⟩
  · intro host h1
    rcases hostReply with e | value
    · simp [forwardProjectRequest, h1]
    · rcases readAfter with e2 | hostAgain <;> simp [forwardProjectRequest, h1]
  · intro host value hostAgain h1 h2 h3
    simp [forwardProjectRequest, h1, h2, h3]
  · intro host value e h1 h2 h3
    simp [forwardProjectRequest, h1, h2, h3]

/-- Witness for forwardProjectRequest_revalidates: when the project is
gone by the time the host replies, the requester gets the error, not the
payload. -/
theorem forwardProjectRequest_revalidates_witness :
    forwardProjectRequest 2 (.ok 1) (.ok 5) (.error "no such project")
      = ([Event.forwardRequest 2 1], .error "no such project") :=
  (forwardProjectRequest_revalidates 2 (.ok 1) (.ok 5)
      (.error "no such project")).2.2 1 5 "no such project" rfl rfl rfl

/-- Claim C8: for every accepted connection the first server-to-client
message delivered on that connection is `Hello { peer_id = connection_id }`
— whatever the user's onboarding state, pending incoming call, contacts
or invite info, no other message precedes it in the setup trace (and the
dispatch loop, as well as any fan-out that could address this connection
via the Store, only runs after the setup registered the connection). -/
theorem hello_first_message (connectionId userId : Nat)
    (connectedOnce : Bool) (incomingCall : Option Msg)
    (inviteCode : Option Nat) :
    (msgsToConn connectionId
        (handleConnectionSetup connectionId userId connectedOnce
          incomingCall inviteCode)).head?
      = some (Msg.hello connectionId) := by
  simp [handleConnectionSetup, msgsToConn]

/-- Claim C9: a RequestContact whose requester equals the responder fails
with "cannot add yourself as a contact" having produced no event: no
`Db::send_contact_request` write and no `UpdateContacts` fan-out. -/
theorem requestContact_self_rejected
    (userIdForConnection : Nat → Except String Nat)
    (connectionIdsForUser : Nat → List Nat)
    (senderConn responderId : Nat)
    (hu : userIdForConnection senderConn = .ok responderId) :
    requestContact userIdForConnection connectionIdsForUser senderConn
        responderId
      = ([], .error "cannot add yourself as a contact") := by
  simp [requestContact, hu]

/-- Witness for requestContact_self_rejected at concrete inputs. -/
theorem requestContact_self_rejected_witness :
    requestContact (fun _ => .ok 9) (fun _ => [1, 2]) 3 9
      = ([], .error "cannot add yourself as a contact") :=
  requestContact_self_rejected (fun _ => .ok 9) (fun _ => [1, 2]) 3 9 rfl

/-- Claim C10: on a successful Follow, the views relayed to the follower
are exactly the leader's views minus every view whose `leader_id` equals
the follower's own connection id; the remaining views are kept unchanged
and in order (the result is the filter of the original list, a sublist of
it). -/
theorem follow_filters_own_views (projectId followerConn leaderConn : Nat)
    (projectConnectionIds : Except String (List Nat))
    (leaderReply : Except String (List View))
    (conns : List Nat) (views : List View)
    (hconns : projectConnectionIds = .ok conns)
    (hmem : leaderConn ∈ conns)
    (hreply : leaderReply = .ok views) :
    (followHandler projectId followerConn leaderConn projectConnectionIds
        leaderReply).2
      = .ok (views.filter fun v => v.leader_id ≠ some followerConn)
    ∧ (∀ v ∈ views.filter fun v => v.leader_id ≠ some followerConn,
        v.leader_id ≠ some followerConn)
    ∧ (∀ v ∈ views, v.leader_id ≠ some followerConn →
        v ∈ views.filter fun v => v.leader_id ≠ some followerConn)
    ∧ (views.filter fun v => v.leader_id ≠ some followerConn).Sublist
        views := by
  refine ⟨?_, ?_, ?_, List.filter_sublist _⟩
  · simp [followHandler, hconns, hmem, hreply]
  · intro v hv
    exact of_decide_eq_true (List.mem_filter.mp hv).2
  · intro v hv hne
    exact List.mem_filter.mpr ⟨hv, decide_eq_true hne⟩

/-- Witness for follow_filters_own_views: follower connection 5 joins,
the view it leads is dropped from the relayed reply. -/
theorem follow_filters_own_views_witness :
    (followHandler 8 5 7 (.ok [1, 5, 7]) (.ok viewsC10)).2
      = .ok (viewsC10.filter fun v => v.leader_id ≠ some 5) :=
  (follow_filters_own_views 8 5 7 (.ok [1, 5, 7]) (.ok viewsC10) [1, 5, 7]
      viewsC10 rfl (by decide) rfl).1

end SigDeploy
